import Mathlib

/-!
Shallow embedding of the free5gc-upf-operator charm (src/charm.py and
src/network_attachment_definition.py), together with proofs about the
config-changed and remove event handlers.

The charm is a straight-line reconciler: each handler reads external state
(container reachability, Kubernetes get results, an `ip rule list` probe)
and issues external writes (file push, Kubernetes create/patch/delete,
container exec commands, pebble layer updates).  We model the external
state read during one invocation as a `World` record, and a handler as a
pure function from the charm configuration and the world to the ordered
list of side effects it issues, the status it sets, whether it deferred
the event, and whether an uncaught exception escaped.
-/

namespace Free5gcUpf

/-- The nine string-valued charm settings (config.yaml):
cidr/gateway/interface for each of n3, n4, n6. -/
structure Config where
  n3_cidr : String
  n3_gateway : String
  n3_interface : String
  n4_cidr : String
  n4_gateway : String
  n4_interface : String
  n6_cidr : String
  n6_gateway : String
  n6_interface : String
deriving DecidableEq

/-- Constant `BASE_CONFIG_PATH` from charm.py. -/
def BASE_CONFIG_PATH : String := "/free5gc/config"

/-- Constant `CONFIG_FILE_NAME` from charm.py. -/
def CONFIG_FILE_NAME : String := "upfcfg.yaml"

/-- Constant `N3_NETWORK_ATTACHMENT_DEFINITION_NAME` from charm.py. -/
def N3_NAD_NAME : String := "n3network-free5gc-v1-free5gc-upf"

/-- Constant `N4_NETWORK_ATTACHMENT_DEFINITION_NAME` from charm.py. -/
def N4_NAD_NAME : String := "n4network-free5gc-v1-free5gc-upf"

/-- Constant `N6_NETWORK_ATTACHMENT_DEFINITION_NAME` from charm.py. -/
def N6_NAD_NAME : String := "n6network-free5gc-v1-free5gc-upf"

/-- The pod-template key written by `_add_statefulset_pod_network_annotation`. -/
def NETWORKS_KEY : String := "k8s.v1.cni.cncf.io/networks"

/-! ### A small JSON value type, mirroring the Python dict/list/str/bool
values the charm passes to `json.dumps`. -/

/-- JSON values as built by charm.py (only strings, booleans, arrays and
objects occur; object fields keep Python dict insertion order). -/
inductive Json where
  | str : String → Json
  | bool : Bool → Json
  | arr : List Json → Json
  | obj : List (String × Json) → Json

mutual

/-- Python `json.dumps` with default separators (", " between items,
": " between a key and its value).  The strings the charm dumps contain
no characters needing escapes, so plain quoting suffices. -/
def Json.dumps : Json → String
  | .str s => "\"" ++ s ++ "\""
  | .bool b => if b then "true" else "false"
  | .arr xs => "[" ++ Json.dumpsArr xs ++ "]"
  | .obj kvs => "\x7b" ++ Json.dumpsObj kvs ++ "\x7d"

/-- Comma-separated rendering of a JSON array body. -/
def Json.dumpsArr : List Json → String
  | [] => ""
  | [x] => Json.dumps x
  | x :: y :: xs => Json.dumps x ++ ", " ++ Json.dumpsArr (y :: xs)

/-- Comma-separated rendering of a JSON object body. -/
def Json.dumpsObj : List (String × Json) → String
  | [] => ""
  | [(k, v)] => "\"" ++ k ++ "\": " ++ Json.dumps v
  | (k, v) :: y :: xs => "\"" ++ k ++ "\": " ++ Json.dumps v ++ ", " ++ Json.dumpsObj (y :: xs)

end

/-! ### Python string helpers used by the charm -/

/-- Whether the list `s` starts with `pat` (helper for substring search). -/
def listStartsWith : List Char → List Char → Bool
  | _, [] => true
  | [], _ :: _ => false
  | a :: s, b :: pat => a == b && listStartsWith s pat

/-- Whether `pat` occurs as a contiguous sublist of `s`. -/
def listContainsSub : List Char → List Char → Bool
  | [], pat => pat.isEmpty
  | a :: s, pat => listStartsWith (a :: s) pat || listContainsSub s pat

/-- Python `sub in s` on strings: substring containment. -/
def strContains (s sub : String) : Bool :=
  listContainsSub s.data sub.data

/-- Python `s.split("/")[0]`: the part of `s` before the first "/"
(the whole of `s` when it has no "/"). -/
def cidrAddress (s : String) : String :=
  ⟨s.data.takeWhile (fun c => c != '/')⟩

/-- Python dict assignment `d[k] = v` on an insertion-ordered dict
represented as an association list (keys unique): replace in place when
`k` is present, else append at the end. -/
def dictSet (d : List (String × String)) (k v : String) : List (String × String) :=
  match d with
  | [] => [(k, v)]
  | (k0, v0) :: rest => if k0 = k then (k, v) :: rest else (k0, v0) :: dictSet rest k v

/-- Python `k in d` on a dict represented as an association list. -/
def dictHasKey (d : List (String × String)) (k : String) : Bool :=
  (d.map Prod.fst).contains k

/-- Lookup in a dict represented as an association list. -/
def dictGet (d : List (String × String)) (k : String) : Option String :=
  match d with
  | [] => none
  | (k0, v0) :: rest => if k0 = k then some v0 else dictGet rest k

/-! ### External world read by one handler invocation -/

/-- Outcome of `client.get(res=NetworkAttachmentDefinition, ...)`:
either the resource is found, or an `ApiError` with the given
`status.reason` is raised (reason "NotFound" when the resource is absent). -/
inductive GetNadResult where
  | found
  | apiErr (reason : String)
deriving DecidableEq

/-- Outcome of a `client.create` / `client.patch` / `client.delete` call:
success, or an `ApiError` with the given reason. -/
inductive ApiCallResult where
  | ok
  | err (reason : String)
deriving DecidableEq

/-- Outcome of `client.get(res=StatefulSet, ...)`: the pod-template
metadata annotations of the fetched StatefulSet, or an `ApiError`. -/
inductive GetSSResult where
  | ok (anns : List (String × String))
  | err (reason : String)
deriving DecidableEq

/-- Outcome of `process.wait_output()` on the `ip rule list` probe:
the stdout string, or an `ExecError` with exit code and stderr. -/
inductive ProbeResult where
  | output (stdout : String)
  | execErr (exitCode : Int) (stderr : String)
deriving DecidableEq

/-- The external state one handler invocation observes: container
reachability, the per-name NAD get outcome, the StatefulSet get outcome,
the per-name create outcome, the patch outcome, the per-name delete
outcome, and the routing-rule probe outcome. -/
structure World where
  canConnect : Bool
  getNad : String → GetNadResult
  getSS : GetSSResult
  createNad : String → ApiCallResult
  patchSS : ApiCallResult
  deleteNad : String → ApiCallResult
  probe : ProbeResult

/-! ### Side effects and handler results -/

/-- One externally visible call issued by a handler, in issue order. -/
inductive Effect where
  | pushFile (path content : String)
  | k8sGetNad (name : String)
  | k8sCreateNad (name configJson : String)
  | k8sGetStatefulSet
  | k8sPatchStatefulSet (anns : List (String × String))
  | k8sDeleteNad (name : String)
  | containerExec (cmd : List String)
  | addLayer
  | replan
deriving DecidableEq

/-- Unit status values the charm sets. -/
inductive Status where
  | active
  | waiting (msg : String)
deriving DecidableEq

/-- Result of running a handler: the effects issued (in order, including
a failing call), the status set (none when the handler never assigned
one), whether `event.defer()` was called, and the reason of an uncaught
exception when one escaped. -/
structure RunResult where
  effects : List Effect
  status : Option Status
  deferred : Bool
  raised : Option String
deriving DecidableEq

/-! ### Embedded charm operations -/

/-- The CNI spec dict shared by `_create_n3/n4/n6_network_attachement_definition`
(identical in the three, up to the master interface and the gateway). -/
def macvlanNadSpec (master gateway : String) : Json :=
  .obj [("cniVersion", .str "0.3.1"),
        ("plugins", .arr
          [.obj [("type", .str "macvlan"),
                 ("capabilities", .obj [("ips", .bool true)]),
                 ("master", .str master),
                 ("mode", .str "bridge"),
                 ("ipam", .obj [("type", .str "static"),
                                ("routes", .arr [.obj [("dst", .str "0.0.0.0/0"),
                                                       ("gw", .str gateway)]])])],
           .obj [("capabilities", .obj [("mac", .bool true)]),
                 ("type", .str "tuning")]])]

/-- `n3_nad_spec` from `_create_n3_network_attachement_definition`. -/
def n3NadSpec (cfg : Config) : Json :=
  macvlanNadSpec cfg.n3_interface cfg.n3_gateway

/-- `n4_nad_spec` from `_create_n4_network_attachement_definition`. -/
def n4NadSpec (cfg : Config) : Json :=
  macvlanNadSpec cfg.n4_interface cfg.n4_gateway

/-- `n6_nad_spec` from `_create_n6_network_attachement_definition`. -/
def n6NadSpec (cfg : Config) : Json :=
  macvlanNadSpec cfg.n6_interface cfg.n6_gateway

/-- `_network_attachment_definition_created`: True when the get succeeds;
an `ApiError` with reason "NotFound" and an `ApiError` with any other
reason both yield False (the second is logged, not raised). -/
def nadCreated : GetNadResult → Bool
  | .found => true
  | .apiErr _ => false

/-- The marker substring `_networking_rules_are_created` looks for in the
probe output. -/
def RULES_MARKER : String := "from 10.1.0.0/16 table n6if"

/-- The probe command issued by `_networking_rules_are_created`. -/
def probeCommand : List String := ["ip", "rule", "list"]

/-- `_networking_rules_are_created`: an `ExecError` of the probe yields
False (logged); otherwise True iff the marker substring occurs in stdout. -/
def networkingRulesAreCreated : ProbeResult → Bool
  | .execErr _ _ => false
  | .output out => strContains out RULES_MARKER

/-- The five commands `_configure_networking_rules` execs, in order.  The
last element of the fifth command is the single token "tablen6if": the
Python source writes the adjacent string literals "table" "n6if", which
concatenate. -/
def configureNetworkingRulesCommands (cfg : Config) : List (List String) :=
  [["iptables-legacy", "-A", "FORWARD", "-j", "ACCEPT"],
   ["iptables-legacy", "-t", "nat", "-A", "POSTROUTING",
    "-s", "10.1.0.0/16", "-o", "n6", "-j", "MASQUERADE"],
   ["echo", "1200 n6if", ">>", "/etc/iproute2/rt_tables"],
   ["ip", "rule", "add", "from", "10.1.0.0/16", "table", "n6if"],
   ["ip", "route", "add", "default", "via", cfg.n6_gateway, "dev", "n6",
    "table" ++ "n6if"]]

/-- The three-element network list built by
`_add_statefulset_pod_network_annotation`, in source order N3, N6, N4. -/
def multusNetworks (cfg : Config) : Json :=
  .arr [.obj [("name", .str N3_NAD_NAME), ("interface", .str "n3"),
              ("ips", .arr [.str cfg.n3_cidr]),
              ("gateway", .arr [.str cfg.n3_gateway])],
        .obj [("name", .str N6_NAD_NAME), ("interface", .str "n6"),
              ("ips", .arr [.str cfg.n6_cidr]),
              ("gateway", .arr [.str cfg.n6_gateway])],
        .obj [("name", .str N4_NAD_NAME), ("interface", .str "n4"),
              ("ips", .arr [.str cfg.n4_cidr]),
              ("gateway", .arr [.str cfg.n4_gateway])]]

/-- The body of src/templates/upfcfg.yaml.j2 rendered at the two
parameters `_write_config_file` passes, taken verbatim from the expected
push content asserted in tests/unit/test_charm.py. -/
def renderUpfcfg (n3_ip n4_ip : String) : String :=
  "version: 1.0.3\ndescription: UPF initial local configuration\n\n"
  ++ "# The listen IP and nodeID of the N4 interface on this UPF (Can\x27t set to 0.0.0.0)\npfcp:\n"
  ++ "  addr: " ++ n4_ip ++ "   # IP addr for listening\n"
  ++ "  nodeID: " ++ n4_ip ++ " # External IP or FQDN can be reached\n"
  ++ "  retransTimeout: 1s # retransmission timeout\n"
  ++ "  maxRetrans: 3 # the max number of retransmission\n\ngtpu:\n"
  ++ "  forwarder: gtp5g\n"
  ++ "  # The IP list of the N3/N9 interfaces on this UPF\n"
  ++ "  # If there are multiple connection, set addr to 0.0.0.0 or list all the addresses\n"
  ++ "  ifList:\n"
  ++ "    - addr: " ++ n3_ip ++ "\n"
  ++ "      type: N3\n"
  ++ "      # name: upf.5gc.nctu.me\n"
  ++ "      # ifname: gtpif\n"
  ++ "dnnList:\n- cidr: 10.1.0.0/17\n  dnn: internet\n  natifname: n6\n"
  ++ "logger:\n  enable: true\n  level: info\n  reportCaller: false"

/-- The content `_write_config_file` renders and pushes: the template at
`n3_ip_address = n3-cidr.split("/")[0]` and
`n4_ip_address = n4-cidr.split("/")[0]`. -/
def configFileContent (cfg : Config) : String :=
  renderUpfcfg (cidrAddress cfg.n3_cidr) (cidrAddress cfg.n4_cidr)

/-- The path `_write_config_file` pushes to. -/
def configFilePath : String := BASE_CONFIG_PATH ++ "/" ++ CONFIG_FILE_NAME

/-- The `ensure NAD` step for one name: issue the get; when
`_network_attachment_definition_created` is False, issue the create with
`spec = {"config": json.dumps(spec)}`.  Returns the effects issued and
the reason of an uncaught `ApiError` from the create, if any. -/
def ensureNadStep (w : World) (name : String) (spec : Json) :
    List Effect × Option String :=
  if nadCreated (w.getNad name) then
    ([.k8sGetNad name], none)
  else
    match w.createNad name with
    | .ok => ([.k8sGetNad name, .k8sCreateNad name (Json.dumps spec)], none)
    | .err r => ([.k8sGetNad name, .k8sCreateNad name (Json.dumps spec)], some r)

/-- `_on_config_changed`, as a function of the configuration and the
observed world.  Mirrors the source order: can_connect guard (waiting
status + defer), config-file push, the three ensure-NAD steps, the
StatefulSet annotation step (`_annotation_added_to_statefulset` gets the
StatefulSet; `_add_statefulset_pod_network_annotation` gets it again,
sets the key and merge-patches), the networking-rules step, then
add_layer, replan and active status.  Unguarded `ApiError`s from the
StatefulSet get, the creates and the patch escape the handler. -/
def onConfigChanged (cfg : Config) (w : World) : RunResult :=
  if w.canConnect = false then
    { effects := [], status := some (.waiting "Waiting for container to be ready"),
      deferred := true, raised := none }
  else
    let e0 : List Effect := [.pushFile configFilePath (configFileContent cfg)]
    match ensureNadStep w N3_NAD_NAME (n3NadSpec cfg) with
    | (e1, some r) => { effects := e0 ++ e1, status := none, deferred := false, raised := some r }
    | (e1, none) =>
    match ensureNadStep w N4_NAD_NAME (n4NadSpec cfg) with
    | (e2, some r) => { effects := e0 ++ e1 ++ e2, status := none, deferred := false, raised := some r }
    | (e2, none) =>
    match ensureNadStep w N6_NAD_NAME (n6NadSpec cfg) with
    | (e3, some r) => { effects := e0 ++ e1 ++ e2 ++ e3, status := none, deferred := false, raised := some r }
    | (e3, none) =>
    let eNad := e0 ++ e1 ++ e2 ++ e3
    match w.getSS with
    | .err r =>
        { effects := eNad ++ [.k8sGetStatefulSet], status := none,
          deferred := false, raised := some r }
    | .ok anns =>
      let annStep :
          List Effect × Option String :=
        if dictHasKey anns NETWORKS_KEY then
          ([.k8sGetStatefulSet], none)
        else
          let newAnns := dictSet anns NETWORKS_KEY (Json.dumps (multusNetworks cfg))
          match w.patchSS with
          | .ok => ([.k8sGetStatefulSet, .k8sGetStatefulSet, .k8sPatchStatefulSet newAnns], none)
          | .err r => ([.k8sGetStatefulSet, .k8sGetStatefulSet, .k8sPatchStatefulSet newAnns], some r)
      match annStep with
      | (e4, some r) => { effects := eNad ++ e4, status := none, deferred := false, raised := some r }
      | (e4, none) =>
        let eProbe : List Effect := [.containerExec probeCommand]
        let eRules : List Effect :=
          if networkingRulesAreCreated w.probe then []
          else (configureNetworkingRulesCommands cfg).map Effect.containerExec
        { effects := eNad ++ e4 ++ eProbe ++ eRules ++ [.addLayer, .replan],
          status := some .active, deferred := false, raised := none }

/-- `_on_remove`: delete the three NADs by fixed name, in order N3, N4,
N6.  Each `client.delete` is unguarded: an `ApiError` (for instance
reason "NotFound" when the resource is absent) escapes the handler and
the remaining deletes are not issued. -/
def onRemove (w : World) : RunResult :=
  match w.deleteNad N3_NAD_NAME with
  | .err r => { effects := [.k8sDeleteNad N3_NAD_NAME], status := none,
                deferred := false, raised := some r }
  | .ok =>
  match w.deleteNad N4_NAD_NAME with
  | .err r => { effects := [.k8sDeleteNad N3_NAD_NAME, .k8sDeleteNad N4_NAD_NAME],
                status := none, deferred := false, raised := some r }
  | .ok =>
  match w.deleteNad N6_NAD_NAME with
  | .err r => { effects := [.k8sDeleteNad N3_NAD_NAME, .k8sDeleteNad N4_NAD_NAME,
                            .k8sDeleteNad N6_NAD_NAME],
                status := none, deferred := false, raised := some r }
  | .ok => { effects := [.k8sDeleteNad N3_NAD_NAME, .k8sDeleteNad N4_NAD_NAME,
                         .k8sDeleteNad N6_NAD_NAME],
             status := none, deferred := false, raised := none }

end Free5gcUpf

namespace Free5gcUpf

/-! ### Effect classifiers and projections used in the statements -/

/-- Whether an effect is a Kubernetes create call. -/
def isCreateEffect : Effect → Bool
  | .k8sCreateNad _ _ => true
  | _ => false

/-- Whether an effect is a Kubernetes patch call. -/
def isPatchEffect : Effect → Bool
  | .k8sPatchStatefulSet _ => true
  | _ => false

/-- Whether an effect is a file push. -/
def isPushEffect : Effect → Bool
  | .pushFile _ _ => true
  | _ => false

/-- The names passed to Kubernetes create calls, in issue order. -/
def createdNames (effs : List Effect) : List String :=
  effs.filterMap (fun e => match e with | .k8sCreateNad n _ => some n | _ => none)

/-- The commands passed to container exec calls, in issue order. -/
def execCmds (effs : List Effect) : List (List String) :=
  effs.filterMap (fun e => match e with | .containerExec c => some c | _ => none)

/-! ### Concrete example configuration and worlds -/

/-- The example configuration used in tests/unit/test_charm.py. -/
def cfgA : Config :=
  { n3_cidr := "1.2.3.4/29", n3_gateway := "5.6.7.1", n3_interface := "eth0"
    n4_cidr := "1.2.3.5/29", n4_gateway := "5.6.7.2", n4_interface := "eth0"
    n6_cidr := "1.2.3.6/29", n6_gateway := "5.6.7.3", n6_interface := "eth1" }

/-- `cfgA` with every n6 setting changed and n3/n4 settings kept. -/
def cfgA6 : Config :=
  { cfgA with n6_cidr := "9.8.7.6/24", n6_gateway := "9.8.7.1", n6_interface := "n6alt" }

/-- A first-run world: container reachable, all three NAD gets answer
NotFound, the StatefulSet has no pod-template annotations, every write
succeeds, probe output empty. -/
def worldFresh : World :=
  { canConnect := true
    getNad := fun _ => .apiErr "NotFound"
    getSS := .ok []
    createNad := fun _ => .ok
    patchSS := .ok
    deleteNad := fun _ => .ok
    probe := .output "" }

/-- Pod-template annotations of a StatefulSet already carrying the
multus networks key plus an unrelated key. -/
def steadyAnns : List (String × String) :=
  [("k8s.v1.cni.cncf.io/networks", "[]"), ("other.example/key", "keep")]

/-- An `ip rule list` output containing the marker line. -/
def rulesProbeOut : String :=
  "0:\tfrom all lookup local\n100:\tfrom 10.1.0.0/16 table n6if\n32766:\tfrom all lookup main"

/-- A steady-state world: everything already exists, probe shows the
marker. -/
def worldSteady : World :=
  { canConnect := true
    getNad := fun _ => .found
    getSS := .ok steadyAnns
    createNad := fun _ => .ok
    patchSS := .ok
    deleteNad := fun _ => .ok
    probe := .output "0:\tfrom all lookup local\n100:\tfrom 10.1.0.0/16 table n6if\n32766:\tfrom all lookup main" }

/-- `worldSteady` with a probe output lacking the marker. -/
def worldNoRules : World :=
  { worldSteady with probe := .output "0:\tfrom all lookup local" }

/-- A world whose container is not reachable. -/
def worldUnreachable : World :=
  { worldFresh with canConnect := false }

/-- `worldFresh` with the StatefulSet get failing. -/
def worldSSErr : World :=
  { worldFresh with getSS := .err "ServiceUnavailable" }

/-- A world in which every NAD delete raises NotFound (the NADs are
absent, as when config-changed never ran). -/
def worldDeleteFails : World :=
  { worldFresh with deleteNad := fun _ => .err "NotFound" }

/-! ### Helper lemmas -/

/-- When the create call succeeds, the ensure-NAD step raises nothing. -/
theorem ensureNadStep_ok (w : World) (name : String) (spec : Json)
    (h : w.createNad name = .ok) : (ensureNadStep w name spec).2 = none := by
  unfold ensureNadStep
  split
  · rfl
  · rw [h]

set_option maxRecDepth 100000

/-- C4: when `can_connect` is false, `_on_config_changed` issues no
effect at all, sets waiting status with the fixed message, defers the
event and raises nothing. -/
theorem C4_container_unreachable (cfg : Config) (w : World)
    (h : w.canConnect = false) :
    onConfigChanged cfg w =
      { effects := [], status := some (.waiting "Waiting for container to be ready"),
        deferred := true, raised := none } := by
  simp [onConfigChanged, h]

/-- C4 witness: the theorem applied at the example configuration and an
unreachable-container world. -/
theorem C4_witness :
    worldUnreachable.canConnect = false ∧
    onConfigChanged cfgA worldUnreachable =
      { effects := [], status := some (.waiting "Waiting for container to be ready"),
        deferred := true, raised := none } :=
  ⟨rfl, C4_container_unreachable cfgA worldUnreachable rfl⟩

/-- C5 (amended): `_on_remove` issues the deletes in order N3, N4, N6;
when all three succeed it issues exactly three and raises nothing, but
when the first delete raises an ApiError (for instance NotFound because
the resource is absent), the exception escapes and the remaining deletes
are not issued. -/
theorem C5_remove_deletes (w : World) :
    (w.deleteNad N3_NAD_NAME = .ok → w.deleteNad N4_NAD_NAME = .ok →
      w.deleteNad N6_NAD_NAME = .ok →
      onRemove w =
        { effects := [.k8sDeleteNad N3_NAD_NAME, .k8sDeleteNad N4_NAD_NAME,
                      .k8sDeleteNad N6_NAD_NAME],
          status := none, deferred := false, raised := none })
    ∧ (∀ r, w.deleteNad N3_NAD_NAME = .err r →
      onRemove w =
        { effects := [.k8sDeleteNad N3_NAD_NAME],
          status := none, deferred := false, raised := some r }) := by
  constructor
  · intro h3 h4 h6
    simp [onRemove, h3, h4, h6]
  · intro r h3
    simp [onRemove, h3]

/-- C5 counterexample: in the world where the NADs are absent (every
delete raises NotFound), remove does not issue three delete calls and
does not complete without raising. -/
theorem C5_counterexample :
    ¬ ((onRemove worldDeleteFails).effects =
        [.k8sDeleteNad N3_NAD_NAME, .k8sDeleteNad N4_NAD_NAME, .k8sDeleteNad N6_NAD_NAME]
      ∧ (onRemove worldDeleteFails).raised = none) := by
  decide

/-- C5 witness: the amended theorem applied at a world whose deletes all
succeed. -/
theorem C5_witness :
    onRemove worldFresh =
      { effects := [.k8sDeleteNad N3_NAD_NAME, .k8sDeleteNad N4_NAD_NAME,
                    .k8sDeleteNad N6_NAD_NAME],
        status := none, deferred := false, raised := none } :=
  (C5_remove_deletes worldFresh).1 rfl rfl rfl

end Free5gcUpf

namespace Free5gcUpf

set_option maxRecDepth 100000

/-- C2: a second config-changed invocation in a world where the three
NADs exist, the StatefulSet already carries the networks key and the
probe output contains the marker issues exactly the config-file push,
the three NAD gets, the StatefulSet get, the probe exec, add_layer and
replan: no create, no patch, no rule-creation exec. -/
theorem C2_second_run_idempotent (cfg : Config) (w : World)
    (anns : List (String × String)) (out : String)
    (hc : w.canConnect = true)
    (h3 : w.getNad N3_NAD_NAME = .found)
    (h4 : w.getNad N4_NAD_NAME = .found)
    (h6 : w.getNad N6_NAD_NAME = .found)
    (hss : w.getSS = .ok anns)
    (hk : dictHasKey anns NETWORKS_KEY = true)
    (hp : w.probe = .output out)
    (hm : strContains out RULES_MARKER = true) :
    onConfigChanged cfg w =
      { effects := [.pushFile configFilePath (configFileContent cfg),
                    .k8sGetNad N3_NAD_NAME, .k8sGetNad N4_NAD_NAME, .k8sGetNad N6_NAD_NAME,
                    .k8sGetStatefulSet, .containerExec probeCommand,
                    .addLayer, .replan],
        status := some .active, deferred := false, raised := none } := by
  simp [onConfigChanged, ensureNadStep, nadCreated, networkingRulesAreCreated,
        hc, h3, h4, h6, hss, hk, hp, hm]

/-- C2 witness: the theorem applied at the example configuration and the
steady-state world. -/
theorem C2_witness :
    onConfigChanged cfgA worldSteady =
      { effects := [.pushFile configFilePath (configFileContent cfgA),
                    .k8sGetNad N3_NAD_NAME, .k8sGetNad N4_NAD_NAME, .k8sGetNad N6_NAD_NAME,
                    .k8sGetStatefulSet, .containerExec probeCommand,
                    .addLayer, .replan],
        status := some .active, deferred := false, raised := none } :=
  C2_second_run_idempotent cfgA worldSteady steadyAnns rulesProbeOut
    rfl rfl rfl rfl rfl (by decide) rfl (by decide)

/-- C3 evaluation: with the marker absent, the routing step execs the
probe and then exactly the five fixed commands in order; the first four
are as the claim states, but the fifth command passes the single token
"tablen6if" (the Python source writes the adjacent literals
"table" "n6if", which concatenate), so no `table n6if` argument pair is
passed and the default route is not placed in table n6if.  With the
marker present, only the probe is execed. -/
theorem C3_rules_step_eval :
    execCmds (onConfigChanged cfgA worldNoRules).effects =
      probeCommand :: configureNetworkingRulesCommands cfgA
    ∧ configureNetworkingRulesCommands cfgA =
      [["iptables-legacy", "-A", "FORWARD", "-j", "ACCEPT"],
       ["iptables-legacy", "-t", "nat", "-A", "POSTROUTING",
        "-s", "10.1.0.0/16", "-o", "n6", "-j", "MASQUERADE"],
       ["echo", "1200 n6if", ">>", "/etc/iproute2/rt_tables"],
       ["ip", "rule", "add", "from", "10.1.0.0/16", "table", "n6if"],
       ["ip", "route", "add", "default", "via", "5.6.7.3", "dev", "n6", "tablen6if"]]
    ∧ execCmds (onConfigChanged cfgA worldSteady).effects = [probeCommand] := by
  refine ⟨by decide, by decide, by decide⟩

/-- C7: the rendered config-file content depends only on the n3-cidr and
n4-cidr settings, and at the example configuration it contains the n3
and n4 address parts but not the n6 one. -/
theorem C7_config_content_pure (cfg cfgB : Config)
    (h3 : cfg.n3_cidr = cfgB.n3_cidr) (h4 : cfg.n4_cidr = cfgB.n4_cidr) :
    configFileContent cfg = configFileContent cfgB
    ∧ strContains (configFileContent cfgA) "1.2.3.4" = true
    ∧ strContains (configFileContent cfgA) "1.2.3.5" = true
    ∧ strContains (configFileContent cfgA) "1.2.3.6" = false := by
  refine ⟨?_, by decide, by decide, by decide⟩
  simp [configFileContent, h3, h4]

/-- C7 witness: the theorem applied at the example configuration and its
variant whose n6 settings all differ. -/
theorem C7_witness :
    cfgA.n3_cidr = cfgA6.n3_cidr ∧ cfgA.n4_cidr = cfgA6.n4_cidr ∧
    configFileContent cfgA = configFileContent cfgA6 :=
  ⟨rfl, rfl, (C7_config_content_pure cfgA cfgA6 rfl rfl).1⟩

/-- C10: the probe command and the marker are hard-coded constants, and
the five rule-creation commands agree for any two configurations that
agree on n6-gateway (in particular the configured n6-interface setting
is not used). -/
theorem C10_rules_only_use_n6_gateway (cfg cfgB : Config)
    (h : cfg.n6_gateway = cfgB.n6_gateway) :
    configureNetworkingRulesCommands cfg = configureNetworkingRulesCommands cfgB
    ∧ probeCommand = ["ip", "rule", "list"]
    ∧ RULES_MARKER = "from 10.1.0.0/16 table n6if" := by
  refine ⟨?_, rfl, rfl⟩
  simp [configureNetworkingRulesCommands, h]

/-- C10 witness: the theorem applied at the example configuration and a
variant that agrees only on n6-gateway. -/
theorem C10_witness :
    configureNetworkingRulesCommands cfgA =
      configureNetworkingRulesCommands
        { cfgA6 with n6_gateway := "5.6.7.3", n3_cidr := "7.7.7.7/7" } :=
  (C10_rules_only_use_n6_gateway cfgA
    { cfgA6 with n6_gateway := "5.6.7.3", n3_cidr := "7.7.7.7/7" } rfl).1

end Free5gcUpf

namespace Free5gcUpf

set_option maxRecDepth 100000

/-- Python dict update: lookups of keys other than the assigned one are
unchanged. -/
theorem dictGet_dictSet_ne (d : List (String × String)) (k v kx : String)
    (hne : kx ≠ k) :
    dictGet (dictSet d k v) kx = dictGet d kx := by
  induction d with
  | nil => simp [dictSet, dictGet, Ne.symm hne]
  | cons kv d ih =>
    obtain ⟨k0, v0⟩ := kv
    by_cases hk : k0 = k
    · subst hk
      have h1 : ¬ (k0 = kx) := fun h => hne h.symm
      simp [dictSet, dictGet, h1]
    · by_cases hx : k0 = kx
      · subst hx
        simp [dictSet, dictGet, hk]
      · simp [dictSet, dictGet, hk, hx, ih]

/-- Python dict update of an absent key: the key is afterwards bound to
the assigned value. -/
theorem dictGet_dictSet_absent (d : List (String × String)) (k v : String)
    (hmem : dictHasKey d k = false) :
    dictGet (dictSet d k v) k = some v := by
  induction d with
  | nil => simp [dictSet, dictGet]
  | cons kv d ih =>
    obtain ⟨k0, v0⟩ := kv
    simp only [dictHasKey, List.map_cons, List.contains_cons, Bool.or_eq_false_iff,
               beq_eq_false_iff_ne] at hmem
    have hk : ¬ (k0 = k) := fun h => hmem.1 h.symm
    simp only [dictSet, if_neg hk, dictGet]
    exact ih (by unfold dictHasKey; exact hmem.2)

/-- C1: a single config-changed invocation on a reachable container with
the three NADs absent and the networks key absent creates exactly the
three NADs in order N3, N4, N6, issues exactly one patch carrying the
networks key bound to the dumped three-entry array (order N3, N6, N4,
each entry carrying that network's cidr as ips and its gateway), pushes
exactly the rendered config file, and ends active without defer or
exception. -/
theorem C1_first_run (cfg : Config) (w : World) (anns : List (String × String))
    (hc : w.canConnect = true)
    (h3 : w.getNad N3_NAD_NAME = .apiErr "NotFound")
    (h4 : w.getNad N4_NAD_NAME = .apiErr "NotFound")
    (h6 : w.getNad N6_NAD_NAME = .apiErr "NotFound")
    (hss : w.getSS = .ok anns)
    (hk : dictHasKey anns NETWORKS_KEY = false)
    (hc3 : w.createNad N3_NAD_NAME = .ok)
    (hc4 : w.createNad N4_NAD_NAME = .ok)
    (hc6 : w.createNad N6_NAD_NAME = .ok)
    (hp : w.patchSS = .ok) :
    createdNames (onConfigChanged cfg w).effects = [N3_NAD_NAME, N4_NAD_NAME, N6_NAD_NAME]
    ∧ (onConfigChanged cfg w).effects.filter isPatchEffect =
        [.k8sPatchStatefulSet (dictSet anns NETWORKS_KEY (Json.dumps (multusNetworks cfg)))]
    ∧ dictGet (dictSet anns NETWORKS_KEY (Json.dumps (multusNetworks cfg))) NETWORKS_KEY =
        some (Json.dumps (multusNetworks cfg))
    ∧ multusNetworks cfg =
        .arr [.obj [("name", .str N3_NAD_NAME), ("interface", .str "n3"),
                    ("ips", .arr [.str cfg.n3_cidr]),
                    ("gateway", .arr [.str cfg.n3_gateway])],
              .obj [("name", .str N6_NAD_NAME), ("interface", .str "n6"),
                    ("ips", .arr [.str cfg.n6_cidr]),
                    ("gateway", .arr [.str cfg.n6_gateway])],
              .obj [("name", .str N4_NAD_NAME), ("interface", .str "n4"),
                    ("ips", .arr [.str cfg.n4_cidr]),
                    ("gateway", .arr [.str cfg.n4_gateway])]]
    ∧ (onConfigChanged cfg w).effects.filter isPushEffect =
        [.pushFile configFilePath (configFileContent cfg)]
    ∧ (onConfigChanged cfg w).status = some .active
    ∧ (onConfigChanged cfg w).deferred = false
    ∧ (onConfigChanged cfg w).raised = none := by
  refine ⟨?_, ?_, dictGet_dictSet_absent anns NETWORKS_KEY _ hk, rfl, ?_, ?_, ?_, ?_⟩ <;>
    cases hrules : networkingRulesAreCreated w.probe <;>
      simp [onConfigChanged, ensureNadStep, nadCreated, createdNames,
            isPatchEffect, isPushEffect, configureNetworkingRulesCommands,
            hc, h3, h4, h6, hss, hk, hc3, hc4, hc6, hp, hrules]

/-- C1 witness: the theorem applied at the example configuration and the
first-run world. -/
theorem C1_witness :
    createdNames (onConfigChanged cfgA worldFresh).effects =
      [N3_NAD_NAME, N4_NAD_NAME, N6_NAD_NAME]
    ∧ (onConfigChanged cfgA worldFresh).status = some .active :=
  ⟨(C1_first_run cfgA worldFresh [] rfl rfl rfl rfl rfl rfl rfl rfl rfl rfl).1,
   (C1_first_run cfgA worldFresh [] rfl rfl rfl rfl rfl rfl rfl rfl rfl rfl).2.2.2.2.2.1⟩

/-- C6: `_network_attachment_definition_created` yields False both for a
NotFound ApiError and for an ApiError with any other reason; with such a
transient error on the N3 existence check (others found, everything else
healthy) the handler attempts the N3 creation and still completes
active without raising. -/
theorem C6_api_error_means_not_created (reason : String) (cfg : Config) (w : World)
    (anns : List (String × String))
    (hc : w.canConnect = true)
    (h3 : w.getNad N3_NAD_NAME = .apiErr reason)
    (h4 : w.getNad N4_NAD_NAME = .found)
    (h6 : w.getNad N6_NAD_NAME = .found)
    (hss : w.getSS = .ok anns)
    (hk : dictHasKey anns NETWORKS_KEY = true)
    (hc3 : w.createNad N3_NAD_NAME = .ok) :
    nadCreated (.apiErr reason) = false
    ∧ nadCreated (.apiErr "NotFound") = false
    ∧ createdNames (onConfigChanged cfg w).effects = [N3_NAD_NAME]
    ∧ (onConfigChanged cfg w).raised = none
    ∧ (onConfigChanged cfg w).status = some .active := by
  refine ⟨rfl, rfl, ?_, ?_, ?_⟩ <;>
    cases hrules : networkingRulesAreCreated w.probe <;>
      simp [onConfigChanged, ensureNadStep, nadCreated, createdNames,
            configureNetworkingRulesCommands,
            hc, h3, h4, h6, hss, hk, hc3, hrules]

/-- C6 witness: the theorem applied at the example configuration and the
steady-state world with a transient error on the N3 get. -/
theorem C6_witness :
    createdNames (onConfigChanged cfgA
      { worldSteady with
          getNad := fun n => if n = N3_NAD_NAME then .apiErr "ServiceUnavailable" else .found }).effects
      = [N3_NAD_NAME] :=
  (C6_api_error_means_not_created "ServiceUnavailable" cfgA
    { worldSteady with
        getNad := fun n => if n = N3_NAD_NAME then .apiErr "ServiceUnavailable" else .found }
    steadyAnns rfl (by decide) (by decide) (by decide) rfl (by decide) rfl).2.2.1

end Free5gcUpf

namespace Free5gcUpf

set_option maxRecDepth 100000

/-- `worldFresh` with an unrelated pod-template key already present on
the StatefulSet. -/
def worldFreshKeep : World :=
  { worldFresh with getSS := .ok [("other.example/key", "keep")] }

/-- C9: on the first-run path, the single patch carries exactly the
fetched annotations with the networks key assigned, and every other key
keeps the value it had on the fetched StatefulSet. -/
theorem C9_patch_preserves_other_keys (cfg : Config) (w : World)
    (anns : List (String × String))
    (hc : w.canConnect = true)
    (h3 : w.getNad N3_NAD_NAME = .apiErr "NotFound")
    (h4 : w.getNad N4_NAD_NAME = .apiErr "NotFound")
    (h6 : w.getNad N6_NAD_NAME = .apiErr "NotFound")
    (hss : w.getSS = .ok anns)
    (hk : dictHasKey anns NETWORKS_KEY = false)
    (hc3 : w.createNad N3_NAD_NAME = .ok)
    (hc4 : w.createNad N4_NAD_NAME = .ok)
    (hc6 : w.createNad N6_NAD_NAME = .ok)
    (hp : w.patchSS = .ok)
    (kx : String) (hne : kx ≠ NETWORKS_KEY) :
    (onConfigChanged cfg w).effects.filter isPatchEffect =
      [.k8sPatchStatefulSet (dictSet anns NETWORKS_KEY (Json.dumps (multusNetworks cfg)))]
    ∧ dictGet (dictSet anns NETWORKS_KEY (Json.dumps (multusNetworks cfg))) kx =
        dictGet anns kx := by
  refine ⟨?_, dictGet_dictSet_ne anns NETWORKS_KEY _ kx hne⟩
  cases hrules : networkingRulesAreCreated w.probe <;>
    simp [onConfigChanged, ensureNadStep, nadCreated, isPatchEffect,
          configureNetworkingRulesCommands,
          hc, h3, h4, h6, hss, hk, hc3, hc4, hc6, hp, hrules]

/-- C9 witness: the theorem applied at the example configuration and a
first-run world whose StatefulSet already carries an unrelated key. -/
theorem C9_witness :
    dictGet (dictSet [("other.example/key", "keep")] NETWORKS_KEY
        (Json.dumps (multusNetworks cfgA))) "other.example/key" =
      dictGet [("other.example/key", "keep")] "other.example/key" :=
  (C9_patch_preserves_other_keys cfgA worldFreshKeep [("other.example/key", "keep")]
    rfl rfl rfl rfl rfl (by decide) rfl rfl rfl rfl
    "other.example/key" (by decide)).2

/-- C8 (amended): ApiErrors on the NAD existence checks and ExecErrors
on the probe are handled locally (with every create, the StatefulSet
get and the patch succeeding, no exception escapes config-changed,
whatever the three get results and the probe result are), and an
unreachable container only sets waiting status and defers; but an
ApiError from an unguarded call escapes: a failing first delete makes
remove raise. -/
theorem C8_propagation :
    (∀ (cfg : Config) (w : World) (anns : List (String × String)),
      w.canConnect = true → w.getSS = .ok anns →
      w.createNad N3_NAD_NAME = .ok → w.createNad N4_NAD_NAME = .ok →
      w.createNad N6_NAD_NAME = .ok → w.patchSS = .ok →
      (onConfigChanged cfg w).raised = none)
    ∧ (∀ (cfg : Config) (w : World), w.canConnect = false →
      (onConfigChanged cfg w).raised = none
      ∧ (onConfigChanged cfg w).status = some (.waiting "Waiting for container to be ready")
      ∧ (onConfigChanged cfg w).deferred = true)
    ∧ (∀ (w : World) (r : String), w.deleteNad N3_NAD_NAME = .err r →
      (onRemove w).raised = some r) := by
  refine ⟨?_, ?_, ?_⟩
  · intro cfg w anns hc hss hca3 hca4 hca6 hp
    rcases hE1 : ensureNadStep w N3_NAD_NAME (n3NadSpec cfg) with ⟨e1, r1⟩
    have h1 := ensureNadStep_ok w N3_NAD_NAME (n3NadSpec cfg) hca3
    rw [hE1] at h1
    rcases hE2 : ensureNadStep w N4_NAD_NAME (n4NadSpec cfg) with ⟨e2, r2⟩
    have h2 := ensureNadStep_ok w N4_NAD_NAME (n4NadSpec cfg) hca4
    rw [hE2] at h2
    rcases hE3 : ensureNadStep w N6_NAD_NAME (n6NadSpec cfg) with ⟨e3, r3⟩
    have h3 := ensureNadStep_ok w N6_NAD_NAME (n6NadSpec cfg) hca6
    rw [hE3] at h3
    simp only at h1 h2 h3
    subst h1; subst h2; subst h3
    cases hkk : dictHasKey anns NETWORKS_KEY <;>
      cases hrules : networkingRulesAreCreated w.probe <;>
        simp [onConfigChanged, hc, hE1, hE2, hE3, hss, hkk, hp, hrules]
  · intro cfg w hcf
    simp [onConfigChanged, hcf]
  · intro w r hd
    simp [onRemove, hd]

/-- C8 counterexample: an ApiError on the unguarded StatefulSet get
escapes config-changed, so not every failure is handled locally. -/
theorem C8_counterexample :
    ¬ ((onConfigChanged cfgA worldSSErr).raised = none) := by
  decide

/-- C8 witness: the amended theorem applied at the steady-state world,
the unreachable world and the failing-delete world. -/
theorem C8_witness :
    (onConfigChanged cfgA worldSteady).raised = none
    ∧ (onConfigChanged cfgA worldUnreachable).raised = none
    ∧ (onRemove worldDeleteFails).raised = some "NotFound" :=
  ⟨C8_propagation.1 cfgA worldSteady steadyAnns rfl rfl rfl rfl rfl rfl,
   (C8_propagation.2.1 cfgA worldUnreachable rfl).1,
   C8_propagation.2.2 worldDeleteFails "NotFound" rfl⟩

end Free5gcUpf
